import Mathlib

/-!
Shallow embedding of `src/server.js`: an Express backend that stores a daily
todo list as one JSON file in a fixed Google Drive folder (a list-then-create-
or-update upsert keyed by a date-derived file name) and sends one-shot email
reminders through an SMTP transport.  Remote Drive state is a list of files;
each Drive call may be made to throw by a fault-injection oracle, mirroring
the `try`/`catch` blocks of the route handlers.  Handlers return the HTTP
response together with the trace of attempted remote calls.
-/

namespace TodoServer

/-- JSON values: the shape of `req.body` after `bodyParser.json()`. -/
inductive Json where
  | null : Json
  | bool (b : Bool) : Json
  | num (n : Int) : Json
  | str (s : String) : Json
  | arr (items : List Json) : Json
  | obj (fields : List (String × Json)) : Json

/-- One hexadecimal digit, as used by `JSON.stringify` for control-character
escapes. -/
def hexDigit (n : Nat) : Char :=
  if n = 0 then '0' else if n = 1 then '1' else if n = 2 then '2'
  else if n = 3 then '3' else if n = 4 then '4' else if n = 5 then '5'
  else if n = 6 then '6' else if n = 7 then '7' else if n = 8 then '8'
  else if n = 9 then '9' else if n = 10 then 'a' else if n = 11 then 'b'
  else if n = 12 then 'c' else if n = 13 then 'd' else if n = 14 then 'e'
  else 'f'

/-- Escaping of one character inside a JSON string literal, following the
`QuoteJSONString` step of `JSON.stringify`. -/
def escapeChar (c : Char) : String :=
  if c = '"' then "\\\""
  else if c = '\\' then "\\\\"
  else if c = '\x08' then "\\b"
  else if c = '\x09' then "\\t"
  else if c = '\x0a' then "\\n"
  else if c = '\x0c' then "\\f"
  else if c = '\x0d' then "\\r"
  else if c.toNat < 32 then
    "\\u00" ++ String.mk [hexDigit (c.toNat / 16), hexDigit (c.toNat % 16)]
  else String.singleton c

/-- A JSON string literal with its surrounding quotes. -/
def quoteJsonString (s : String) : String :=
  "\"" ++ String.join (s.data.map escapeChar) ++ "\""

mutual

/-- `JSON.stringify(v, null, 2)` relative to the current indentation: the
ECMAScript serialization with a two-space gap. -/
def serializeJson (indent : String) : Json → String
  | .null => "null"
  | .bool true => "true"
  | .bool false => "false"
  | .num n => toString n
  | .str s => quoteJsonString s
  | .arr [] => "[]"
  | .arr (x :: xs) =>
      "[\n" ++ indent ++ "  "
        ++ String.intercalate (",\n" ++ indent ++ "  ")
            (serializeItems (indent ++ "  ") (x :: xs))
        ++ "\n" ++ indent ++ "]"
  | .obj [] => "\x7b\x7d"
  | .obj (f :: fs) =>
      "\x7b\n" ++ indent ++ "  "
        ++ String.intercalate (",\n" ++ indent ++ "  ")
            (serializeFields (indent ++ "  ") (f :: fs))
        ++ "\n" ++ indent ++ "\x7d"

/-- Serialized array elements, in order. -/
def serializeItems (indent : String) : List Json → List String
  | [] => []
  | x :: xs => serializeJson indent x :: serializeItems indent xs

/-- Serialized object members, in insertion order. -/
def serializeFields (indent : String) : List (String × Json) → List String
  | [] => []
  | (k, v) :: fs =>
      (quoteJsonString k ++ ": " ++ serializeJson indent v) :: serializeFields indent fs

end

/-- `JSON.stringify(req.body, null, 2)` as called when building `media.body`
in the POST `/api/todos` handler. -/
def jsonStringify (v : Json) : String := serializeJson "" v

/-- A calendar date, the only input of the document-key derivation. -/
structure SimpleDate where
  year : Nat
  month : Nat
  day : Nat

/-- Gregorian leap-year rule. -/
def isLeap (y : Nat) : Bool :=
  y % 4 == 0 && (y % 100 != 0 || y % 400 == 0)

/-- Number of days in a month. -/
def monthLength (y m : Nat) : Nat :=
  if m = 2 then (if isLeap y then 29 else 28)
  else if m = 4 ∨ m = 6 ∨ m = 9 ∨ m = 11 then 30
  else 31

/-- A well-formed calendar date. -/
def SimpleDate.valid (d : SimpleDate) : Prop :=
  1 ≤ d.year ∧ 1 ≤ d.month ∧ d.month ≤ 12 ∧ 1 ≤ d.day ∧
    d.day ≤ monthLength d.year d.month

instance (d : SimpleDate) : Decidable d.valid := by
  unfold SimpleDate.valid; infer_instance

/-- The calendar date one day later (the date roll-over at midnight). -/
def nextDay (d : SimpleDate) : SimpleDate :=
  if d.day < monthLength d.year d.month then ⟨d.year, d.month, d.day + 1⟩
  else if d.month < 12 then ⟨d.year, d.month + 1, 1⟩
  else ⟨d.year + 1, 1, 1⟩

/-- Sakamoto month offset table for the day-of-week computation. -/
def sakamotoOffset (m : Nat) : Nat :=
  if m = 1 then 0 else if m = 2 then 3 else if m = 3 then 2
  else if m = 4 then 5 else if m = 5 then 0 else if m = 6 then 3
  else if m = 7 then 5 else if m = 8 then 1 else if m = 9 then 4
  else if m = 10 then 6 else if m = 11 then 2 else 4

/-- Day of week of a date, 0 = Sunday through 6 = Saturday. -/
def dayOfWeek (d : SimpleDate) : Nat :=
  let y := if d.month < 3 then d.year - 1 else d.year
  (y + y / 4 - y / 100 + y / 400 + sakamotoOffset d.month + d.day) % 7

/-- The `ddd` token of `dayjs.format`: three-letter day-of-week name. -/
def dowAbbrev (w : Nat) : String :=
  if w = 0 then "Sun" else if w = 1 then "Mon" else if w = 2 then "Tue"
  else if w = 3 then "Wed" else if w = 4 then "Thu" else if w = 5 then "Fri"
  else "Sat"

/-- The `MMM` token of `dayjs.format`: three-letter month name. -/
def monthAbbrev (m : Nat) : String :=
  if m = 1 then "Jan" else if m = 2 then "Feb" else if m = 3 then "Mar"
  else if m = 4 then "Apr" else if m = 5 then "May" else if m = 6 then "Jun"
  else if m = 7 then "Jul" else if m = 8 then "Aug" else if m = 9 then "Sep"
  else if m = 10 then "Oct" else if m = 11 then "Nov" else "Dec"

/-- The `DD` token of `dayjs.format`: zero-padded two-digit day of month. -/
def twoDigit (n : Nat) : String :=
  if n < 10 then "0" ++ toString n else toString n

/-- ASCII lower-casing of one character, as `String.prototype.toLowerCase`
acts on the characters produced here. -/
def lowerChar (c : Char) : Char :=
  if 'A' ≤ c ∧ c ≤ 'Z' then Char.ofNat (c.toNat + 32) else c

/-- JavaScript `toLowerCase` on a string. -/
def strToLower (s : String) : String := ⟨s.data.map lowerChar⟩

/-- The document key: `dayjs().format("dddDDMMM").toLowerCase() + ".json"`,
computed for the given calendar date (both `/api/todos` handlers derive it
this way, line for line). -/
def dateString (d : SimpleDate) : String :=
  strToLower (dowAbbrev (dayOfWeek d) ++ twoDigit d.day ++ monthAbbrev d.month)
    ++ ".json"

/-- A file held by the remote Drive store: store-assigned identifier, name,
parent folders, and its content blob. -/
structure DriveFile where
  id : Nat
  name : String
  parents : List String
  content : String
deriving DecidableEq

/-- The remote store: the files it holds and the next fresh identifier it
will assign on a create. -/
structure DriveState where
  files : List DriveFile
  nextId : Nat
deriving DecidableEq

/-- The `fileMetadata` object passed to `drive.files.create`. -/
structure FileMetadata where
  name : String
  parents : List String
  mimeType : String
deriving DecidableEq

/-- One attempted Drive API call, as recorded in a handler's trace. -/
inductive DriveCall where
  | list (name : String) (folder : String)
  | get (fileId : Nat)
  | update (fileId : Nat) (content : String)
  | create (meta : FileMetadata) (content : String)
deriving DecidableEq

/-- The files matching the listing query
`name='key' and 'folder' in parents`, in store order. -/
def filesMatching (files : List DriveFile) (folder key : String) : List DriveFile :=
  files.filter (fun f => f.name == key && f.parents.contains folder)

/-- `drive.files.list` with the handlers' query, returning handles in store
order. -/
def listFiles (st : DriveState) (folder key : String) : List DriveFile :=
  filesMatching st.files folder key

/-- Fault injection for the remote store: a `some e` field makes the
corresponding Drive call throw `e`. -/
structure DriveOracle where
  listFail : Option String
  getFail : Option String
  updateFail : Option String
  createFail : Option String

/-- The oracle under which every Drive call succeeds. -/
def okOracle : DriveOracle := ⟨none, none, none, none⟩

/-- Body of an HTTP response produced by the server. -/
inductive RespBody where
  | json (v : Json)
  | blob (s : String)
  | text (s : String)

/-- An HTTP response: status code and body. -/
structure Response where
  status : Nat
  body : RespBody

/-- The 401 response produced by the `isAuthenticated` middleware. -/
def notAuthResponse : Response :=
  ⟨401, .json (.obj [("error", .str "Not authenticated")])⟩

/-- Body of `GET /api/todos` past authentication: list by name in the fixed
folder; an empty JSON array when nothing matches; otherwise the first listed
file's content passed through untouched.  Any thrown Drive error is caught
and becomes the generic 500.  Returns the response and the trace of
attempted Drive calls. -/
def getTodos (o : DriveOracle) (st : DriveState) (folder key : String) :
    Response × List DriveCall :=
  match o.listFail with
  | some _ => (⟨500, .text "Error fetching todos"⟩, [.list key folder])
  | none =>
    match listFiles st folder key with
    | [] => (⟨200, .json (.arr [])⟩, [.list key folder])
    | f :: _ =>
      match o.getFail with
      | some _ => (⟨500, .text "Error fetching todos"⟩, [.list key folder, .get f.id])
      | none =>
        match st.files.find? (fun g => g.id == f.id) with
        | some g => (⟨200, .blob g.content⟩, [.list key folder, .get f.id])
        | none => (⟨500, .text "Error fetching todos"⟩, [.list key folder, .get f.id])

/-- Result of the POST `/api/todos` body: the store after the call, the HTTP
response, and the trace of attempted Drive calls. -/
structure SaveResult where
  state : DriveState
  resp : Response
  trace : List DriveCall

/-- `drive.files.update`: overwrite the content of the file with the given
identifier, leaving every other attribute and every other file unchanged. -/
def updateContent (files : List DriveFile) (fid : Nat) (c : String) :
    List DriveFile :=
  files.map (fun f => if f.id == fid then { f with content := c } else f)

/-- Body of `POST /api/todos` past authentication: list by name in the fixed
folder, then update the first match's identifier if one exists, else create
with metadata name, parent folder and JSON mime type; the written bytes are
`JSON.stringify(req.body, null, 2)` in both branches.  Any thrown Drive
error is caught and becomes the generic 500. -/
def saveTodos (o : DriveOracle) (st : DriveState) (folder key : String)
    (body : Json) : SaveResult :=
  match o.listFail with
  | some _ => ⟨st, ⟨500, .text "Error saving todos"⟩, [.list key folder]⟩
  | none =>
    match listFiles st folder key with
    | f :: _ =>
      match o.updateFail with
      | some _ =>
          ⟨st, ⟨500, .text "Error saving todos"⟩,
            [.list key folder, .update f.id (jsonStringify body)]⟩
      | none =>
          ⟨⟨updateContent st.files f.id (jsonStringify body), st.nextId⟩,
            ⟨200, .json (.obj [("success", .bool true)])⟩,
            [.list key folder, .update f.id (jsonStringify body)]⟩
    | [] =>
      match o.createFail with
      | some _ =>
          ⟨st, ⟨500, .text "Error saving todos"⟩,
            [.list key folder,
              .create ⟨key, [folder], "application/json"⟩ (jsonStringify body)]⟩
      | none =>
          ⟨⟨st.files ++ [⟨st.nextId, key, [folder], jsonStringify body⟩], st.nextId + 1⟩,
            ⟨200, .json (.obj [("success", .bool true)])⟩,
            [.list key folder,
              .create ⟨key, [folder], "application/json"⟩ (jsonStringify body)]⟩

/-- `GET /api/todos` with the `isAuthenticated` middleware in front: an
unauthenticated request is rejected before any Drive call. -/
def apiTodosGet (authed : Bool) (o : DriveOracle) (st : DriveState)
    (folder key : String) : Response × List DriveCall :=
  if authed then getTodos o st folder key else (notAuthResponse, [])

/-- `POST /api/todos` with the `isAuthenticated` middleware in front. -/
def apiTodosPost (authed : Bool) (o : DriveOracle) (st : DriveState)
    (folder key : String) (body : Json) : SaveResult :=
  if authed then saveTodos o st folder key body else ⟨st, notAuthResponse, []⟩

/-- The `mailOptions` object handed to `transporter.sendMail`. -/
structure MailOptions where
  «from» : String
  «to» : String
  subject : String
  html : String

/-- The literal `mailOptions` built by `sendTaskReminder` (template fields
spliced into the fixed subject and HTML body; the unusual characters are the
ones present verbatim in the source). -/
def buildMailOptions (emailUser userEmail userName taskName dueDate priority
    taskLink : String) : MailOptions :=
  { «from» := "\"Task Reminder\" <" ++ emailUser ++ ">"
    «to» := userEmail
    subject := "â³ Reminder: Upcoming Task - " ++ taskName
    html := "\n      <p>Hello <strong>" ++ userName ++ "</strong>,</p>\n"
      ++ "      <p>This is a reminder about your upcoming task:</p>\n"
      ++ "      <ul>\n"
      ++ "        <li>ğŸ“Œ <strong>Task:</strong> " ++ taskName ++ "</li>\n"
      ++ "        <li>ğŸ“… <strong>Due Date:</strong> " ++ dueDate ++ "</li>\n"
      ++ "        <li>ğŸ“ <strong>Priority:</strong> " ++ priority ++ "</li>\n"
      ++ "      </ul>\n"
      ++ "      <p>ğŸ”— <a href=\"" ++ taskLink
      ++ "\" target=\"_blank\">View Task</a></p>\n"
      ++ "      <p>Don\x27t forget to complete it on time!</p>\n"
      ++ "      <p>Best,<br>ğŸš€ <strong>Your To-Do App Team</strong></p>\n    " }

/-- Outcome of handing one message to the SMTP relay: acceptance with the
relay's response line, or a thrown transport error. -/
inductive MailOutcome where
  | accepted (response : String)
  | failed (error : String)

/-- `sendTaskReminder`: build the message, hand it to the transport once,
return `true` on relay acceptance and `false` on any transport failure. -/
def sendTaskReminder (transport : MailOptions → MailOutcome)
    (emailUser userEmail userName taskName dueDate priority taskLink : String) :
    Bool :=
  match transport (buildMailOptions emailUser userEmail userName taskName
      dueDate priority taskLink) with
  | .accepted _ => true
  | .failed _ => false

/-- Result of `POST /api/send-reminder`: the HTTP response and how many times
a message was handed to the mail transport. -/
structure ReminderResult where
  resp : Response
  transportAttempts : Nat

/-- `POST /api/send-reminder` including the `isAuthenticated` middleware:
derive the task link from the client URL and task id, call
`sendTaskReminder` exactly once, and map its boolean to the success or
failure response. -/
def sendReminderHandler (authed : Bool) (transport : MailOptions → MailOutcome)
    (clientUrl emailUser userEmail userName taskName dueDate priority
      taskId : String) : ReminderResult :=
  if authed then
    if sendTaskReminder transport emailUser userEmail userName taskName dueDate
        priority (clientUrl ++ "/task/" ++ taskId) then
      ⟨⟨200, .json (.obj [("message", .str "Reminder sent successfully")])⟩, 1⟩
    else
      ⟨⟨500, .json (.obj [("error", .str "Failed to send reminder")])⟩, 1⟩
  else ⟨notAuthResponse, 0⟩

/-- Well-formedness of a store: identifiers are distinct and below the next
fresh identifier (the store, not the client, assigns identifiers). -/
def DriveState.wf (st : DriveState) : Prop :=
  (st.files.map (fun f => f.id)).Nodup ∧ ∀ f ∈ st.files, f.id < st.nextId

instance (st : DriveState) : Decidable st.wf := by
  unfold DriveState.wf; infer_instance

/-- Number of files with the given name in the folder. -/
def countName (st : DriveState) (folder key : String) : Nat :=
  (listFiles st folder key).length

/-- The content argument of the first write (update or create) in a trace. -/
def writtenContent : List DriveCall → Option String
  | [] => none
  | .update _ c :: _ => some c
  | .create _ c :: _ => some c
  | .list _ _ :: rest => writtenContent rest
  | .get _ :: rest => writtenContent rest

end TodoServer

namespace TodoServer

theorem dow_data_length (w : Nat) : (dowAbbrev w).data.length = 3 := by
  unfold dowAbbrev
  split_ifs <;> decide

theorem strToLower_append (a b : String) :
    strToLower (a ++ b) = strToLower a ++ strToLower b := by
  apply String.ext
  simp [strToLower, String.data_append]

theorem twoDigit_lower : ∀ n : Nat, n < 100 → strToLower (twoDigit n) = twoDigit n := by
  decide

theorem twoDigit_map_length : ∀ n : Nat, n < 32 →
    ((twoDigit n).data.map lowerChar).length = 2 := by
  decide

theorem twoDigit_map_inj : ∀ a : Nat, a < 32 → ∀ b : Nat, b < 32 →
    (twoDigit a).data.map lowerChar = (twoDigit b).data.map lowerChar → a = b := by
  decide

theorem dateString_day_inj (d1 d2 : SimpleDate) (h1 : d1.day < 32) (h2 : d2.day < 32)
    (h : dateString d1 = dateString d2) : d1.day = d2.day := by
  have hd := congrArg String.data h
  simp only [dateString, String.data_append, strToLower, List.map_append,
    List.append_assoc] at hd
  have h3 : ∀ w : Nat, ((dowAbbrev w).data.map lowerChar).length = 3 := by
    intro w
    rw [List.length_map]
    exact dow_data_length w
  obtain ⟨-, htail⟩ := List.append_inj hd (by rw [h3, h3])
  obtain ⟨hmid, -⟩ :=
    List.append_inj htail (by rw [twoDigit_map_length _ h1, twoDigit_map_length _ h2])
  exact twoDigit_map_inj d1.day h1 d2.day h2 hmid

theorem monthLength_bounds (y m : Nat) :
    28 ≤ monthLength y m ∧ monthLength y m ≤ 31 := by
  unfold monthLength
  split_ifs <;> omega

theorem valid_day_lt (d : SimpleDate) (h : d.valid) : d.day < 32 := by
  obtain ⟨-, -, -, -, h5⟩ := h
  have := (monthLength_bounds d.year d.month).2
  omega

theorem nextDay_day_lt (d : SimpleDate) (h : d.valid) : (nextDay d).day < 32 := by
  obtain ⟨-, -, -, -, h5⟩ := h
  have := (monthLength_bounds d.year d.month).2
  unfold nextDay
  split_ifs <;> simp <;> omega

theorem nextDay_day_ne (d : SimpleDate) (h : d.valid) : (nextDay d).day ≠ d.day := by
  obtain ⟨-, -, -, h4, -⟩ := h
  have := (monthLength_bounds d.year d.month).1
  unfold nextDay
  split_ifs with h1 h2 <;> simp <;> omega

/-- C2: the document key is the lower-cased three-letter day-of-week
abbreviation, two-digit day of month and three-letter month abbreviation
followed by ".json" (for example `mon05jan.json`); it is the same for two
invocations on the same calendar date and different once the date rolls
over to the next day. -/
theorem dateString_daily_key :
    dateString ⟨2026, 1, 5⟩ = "mon05jan.json"
    ∧ (∀ d1 d2 : SimpleDate, d1 = d2 → dateString d1 = dateString d2)
    ∧ ∀ d : SimpleDate, d.valid →
        dateString d
            = strToLower (dowAbbrev (dayOfWeek d)) ++ twoDigit d.day
                ++ strToLower (monthAbbrev d.month) ++ ".json"
          ∧ dateString (nextDay d) ≠ dateString d := by
  refine ⟨by decide, fun d1 d2 h => by rw [h], fun d hv => ⟨?_, ?_⟩⟩
  · rw [dateString, strToLower_append, strToLower_append,
      twoDigit_lower d.day (by have := valid_day_lt d hv; omega)]
  · intro h
    exact nextDay_day_ne d hv
      (dateString_day_inj (nextDay d) d (nextDay_day_lt d hv) (valid_day_lt d hv) h)

theorem dateString_daily_key_witness :
    dateString (nextDay ⟨2026, 1, 5⟩) ≠ dateString ⟨2026, 1, 5⟩ :=
  (dateString_daily_key.2.2 ⟨2026, 1, 5⟩ (by decide)).2

end TodoServer

namespace TodoServer

theorem listFiles_mk (files : List DriveFile) (n : Nat) (folder key : String) :
    listFiles ⟨files, n⟩ folder key = filesMatching files folder key := rfl

theorem filesMatching_append (l1 l2 : List DriveFile) (folder key : String) :
    filesMatching (l1 ++ l2) folder key
      = filesMatching l1 folder key ++ filesMatching l2 folder key :=
  List.filter_append l1 l2

theorem filesMatching_singleton_self (n : Nat) (folder key c : String) :
    filesMatching [⟨n, key, [folder], c⟩] folder key = [⟨n, key, [folder], c⟩] := by
  simp [filesMatching, List.filter, List.contains]

theorem filesMatching_updateContent (files : List DriveFile) (fid : Nat)
    (c folder key : String) :
    filesMatching (updateContent files fid c) folder key
      = (filesMatching files folder key).map
          (fun f => if f.id == fid then { f with content := c } else f) := by
  unfold filesMatching updateContent
  rw [List.filter_map]
  congr 1
  apply List.filter_congr
  intro f _
  by_cases hid : (f.id == fid) = true <;> simp [hid, Function.comp]

theorem updateContent_map_id (files : List DriveFile) (fid : Nat) (c : String) :
    (updateContent files fid c).map (fun f => f.id) = files.map (fun f => f.id) := by
  unfold updateContent
  rw [List.map_map]
  apply List.map_congr_left
  intro f _
  by_cases hid : (f.id == fid) = true <;> simp [hid, Function.comp]

theorem mem_updateContent (files : List DriveFile) (fid : Nat) (c : String)
    (f : DriveFile) (hf : f ∈ files) (hid : f.id = fid) :
    (⟨f.id, f.name, f.parents, c⟩ : DriveFile) ∈ updateContent files fid c := by
  unfold updateContent
  have h := List.mem_map_of_mem
    (fun g => if g.id == fid then { g with content := c } else g) hf
  simpa [hid] using h

theorem find?_id_self (files : List DriveFile)
    (hnd : (files.map (fun f => f.id)).Nodup) (f : DriveFile) (hf : f ∈ files) :
    files.find? (fun g => g.id == f.id) = some f := by
  induction files with
  | nil => cases hf
  | cons g gs ih =>
    rw [List.map_cons, List.nodup_cons] at hnd
    rcases List.mem_cons.mp hf with rfl | hmem
    · simp [List.find?]
    · have hne : (g.id == f.id) = false := by
        refine beq_eq_false_iff_ne.mpr fun he => hnd.1 ?_
        exact he ▸ List.mem_map_of_mem (fun x => x.id) hmem
      simp only [List.find?, hne]
      exact ih hnd.2 hmem

theorem find?_append_fresh (files : List DriveFile) (n : Nat)
    (hn : ∀ f ∈ files, f.id < n) (new : DriveFile) (hnew : new.id = n) :
    (files ++ [new]).find? (fun g => g.id == new.id) = some new := by
  induction files with
  | nil => simp [List.find?]
  | cons g gs ih =>
    have hlt := hn g (List.mem_cons_self g gs)
    have hne : (g.id == new.id) = false := by
      refine beq_eq_false_iff_ne.mpr ?_
      rw [hnew]
      omega
    simp only [List.cons_append, List.find?, hne]
    exact ih fun f hf => hn f (List.mem_cons_of_mem g hf)

theorem head_mem_files (st : DriveState) (folder key : String) (f : DriveFile)
    (rest : List DriveFile) (h : listFiles st folder key = f :: rest) :
    f ∈ st.files := by
  have hmem : f ∈ listFiles st folder key := by
    rw [h]
    exact List.mem_cons_self f rest
  exact List.mem_of_mem_filter hmem

theorem saveTodos_ok_update (st : DriveState) (folder key : String) (body : Json)
    (f : DriveFile) (rest : List DriveFile) (h : listFiles st folder key = f :: rest) :
    saveTodos okOracle st folder key body
      = ⟨⟨updateContent st.files f.id (jsonStringify body), st.nextId⟩,
          ⟨200, .json (.obj [("success", .bool true)])⟩,
          [.list key folder, .update f.id (jsonStringify body)]⟩ := by
  unfold saveTodos okOracle
  rw [h]

theorem saveTodos_ok_create (st : DriveState) (folder key : String) (body : Json)
    (h : listFiles st folder key = []) :
    saveTodos okOracle st folder key body
      = ⟨⟨st.files ++ [⟨st.nextId, key, [folder], jsonStringify body⟩], st.nextId + 1⟩,
          ⟨200, .json (.obj [("success", .bool true)])⟩,
          [.list key folder,
            .create ⟨key, [folder], "application/json"⟩ (jsonStringify body)]⟩ := by
  unfold saveTodos okOracle
  rw [h]

theorem getTodos_ok_nil (st : DriveState) (folder key : String)
    (h : listFiles st folder key = []) :
    getTodos okOracle st folder key = (⟨200, .json (.arr [])⟩, [.list key folder]) := by
  unfold getTodos okOracle
  rw [h]

theorem getTodos_ok_found (st : DriveState) (folder key : String) (f : DriveFile)
    (rest : List DriveFile) (g : DriveFile) (h : listFiles st folder key = f :: rest)
    (hg : st.files.find? (fun x => x.id == f.id) = some g) :
    getTodos okOracle st folder key
      = (⟨200, .blob g.content⟩, [.list key folder, .get f.id]) := by
  unfold getTodos okOracle
  rw [h]
  simp only [hg]

end TodoServer

namespace TodoServer

/-- C1: Save first lists the files named `key` in the fixed parent folder; if
at least one match exists it issues an update on the first matched file's
identifier whose entire content becomes the serialized payload (an
overwrite, not a merge), and if no match exists it issues a create with
metadata name `key`, parent the fixed folder and content type
`application/json`, with the given payload as content. -/
theorem save_is_list_then_upsert (st : DriveState) (folder key : String)
    (body : Json) :
    (saveTodos okOracle st folder key body).trace.head? = some (.list key folder)
    ∧ (∀ f rest, listFiles st folder key = f :: rest →
        (saveTodos okOracle st folder key body).trace
            = [.list key folder, .update f.id (jsonStringify body)]
          ∧ (⟨f.id, f.name, f.parents, jsonStringify body⟩ : DriveFile)
              ∈ (saveTodos okOracle st folder key body).state.files)
    ∧ (listFiles st folder key = [] →
        (saveTodos okOracle st folder key body).trace
          = [.list key folder,
              .create ⟨key, [folder], "application/json"⟩ (jsonStringify body)]) := by
  refine ⟨?_, ?_, ?_⟩
  · cases h : listFiles st folder key with
    | nil =>
      rw [saveTodos_ok_create st folder key body h]
      rfl
    | cons f rest =>
      rw [saveTodos_ok_update st folder key body f rest h]
      rfl
  · intro f rest h
    rw [saveTodos_ok_update st folder key body f rest h]
    exact ⟨rfl, mem_updateContent st.files f.id (jsonStringify body) f
      (head_mem_files st folder key f rest h) rfl⟩
  · intro h
    rw [saveTodos_ok_create st folder key body h]

theorem save_is_list_then_upsert_witness :
    (saveTodos okOracle ⟨[⟨0, "k", ["fol"], "old"⟩], 1⟩ "fol" "k" .null).trace
      = [.list "k" "fol", .update 0 (jsonStringify .null)] :=
  ((save_is_list_then_upsert ⟨[⟨0, "k", ["fol"], "old"⟩], 1⟩ "fol" "k" .null).2.1
    ⟨0, "k", ["fol"], "old"⟩ [] (by decide)).1

/-- C3: a successful Save immediately followed by Fetch with no concurrent
writers returns exactly the blob that was just stored. -/
theorem save_then_fetch_roundtrip (st : DriveState) (folder key : String)
    (body : Json) (hwf : st.wf) :
    (getTodos okOracle (saveTodos okOracle st folder key body).state folder key).1
      = ⟨200, .blob (jsonStringify body)⟩ := by
  obtain ⟨hnd, hlt⟩ := hwf
  cases h : listFiles st folder key with
  | nil =>
    rw [saveTodos_ok_create st folder key body h]
    have hlist : listFiles
        ⟨st.files ++ [⟨st.nextId, key, [folder], jsonStringify body⟩], st.nextId + 1⟩
        folder key = [⟨st.nextId, key, [folder], jsonStringify body⟩] := by
      rw [listFiles_mk, filesMatching_append,
        show filesMatching st.files folder key = [] from h, filesMatching_singleton_self]
      rfl
    have hfind := find?_append_fresh st.files st.nextId hlt
      ⟨st.nextId, key, [folder], jsonStringify body⟩ rfl
    rw [getTodos_ok_found _ folder key _ [] _ hlist hfind]
  | cons f rest =>
    rw [saveTodos_ok_update st folder key body f rest h]
    have hlist : listFiles ⟨updateContent st.files f.id (jsonStringify body), st.nextId⟩
        folder key
        = (⟨f.id, f.name, f.parents, jsonStringify body⟩ : DriveFile)
            :: rest.map (fun x =>
                if x.id == f.id then { x with content := jsonStringify body } else x) := by
      rw [listFiles_mk, filesMatching_updateContent,
        show filesMatching st.files folder key = f :: rest from h]
      simp
    have hfind : (updateContent st.files f.id (jsonStringify body)).find?
        (fun x => x.id == (⟨f.id, f.name, f.parents, jsonStringify body⟩ : DriveFile).id)
          = some ⟨f.id, f.name, f.parents, jsonStringify body⟩ := by
      apply find?_id_self
      · rw [updateContent_map_id]
        exact hnd
      · exact mem_updateContent st.files f.id (jsonStringify body) f
          (head_mem_files st folder key f rest h) rfl
    rw [getTodos_ok_found _ folder key _ _ _ hlist hfind]

theorem save_then_fetch_roundtrip_witness :
    (getTodos okOracle (saveTodos okOracle ⟨[], 0⟩ "fol" "k" (.arr [])).state "fol" "k").1
      = ⟨200, .blob (jsonStringify (.arr []))⟩ :=
  save_then_fetch_roundtrip ⟨[], 0⟩ "fol" "k" (.arr []) (by decide)

/-- C4: Fetch on a key with no matching file in the folder responds 200 with
the empty JSON array, attempting no further Drive call — never an error. -/
theorem fetch_missing_returns_empty (st : DriveState) (folder key : String)
    (h : listFiles st folder key = []) :
    getTodos okOracle st folder key = (⟨200, .json (.arr [])⟩, [.list key folder]) :=
  getTodos_ok_nil st folder key h

theorem fetch_missing_returns_empty_witness :
    getTodos okOracle ⟨[], 0⟩ "fol" "k" = (⟨200, .json (.arr [])⟩, [.list "k" "fol"]) :=
  fetch_missing_returns_empty ⟨[], 0⟩ "fol" "k" (by decide)

/-- C5: Fetch on a key with at least one matching file fetches the first
listed file's content and returns it verbatim; files beyond the first are
ignored. -/
theorem fetch_returns_first_match_verbatim (st : DriveState) (folder key : String)
    (f : DriveFile) (rest : List DriveFile) (hwf : st.wf)
    (h : listFiles st folder key = f :: rest) :
    getTodos okOracle st folder key
      = (⟨200, .blob f.content⟩, [.list key folder, .get f.id]) :=
  getTodos_ok_found st folder key f rest f h
    (find?_id_self st.files hwf.1 f (head_mem_files st folder key f rest h))

theorem fetch_returns_first_match_verbatim_witness :
    getTodos okOracle ⟨[⟨0, "k", ["fol"], "one"⟩, ⟨1, "k", ["fol"], "two"⟩], 2⟩ "fol" "k"
      = (⟨200, .blob "one"⟩, [.list "k" "fol", .get 0]) :=
  fetch_returns_first_match_verbatim ⟨[⟨0, "k", ["fol"], "one"⟩, ⟨1, "k", ["fol"], "two"⟩], 2⟩
    "fol" "k" ⟨0, "k", ["fol"], "one"⟩ [⟨1, "k", ["fol"], "two"⟩] (by decide) (by decide)

/-- C6: two successful sequential Save calls for the same key make the second
call an update on an existing identifier, never a second create; and when the
folder did not already hold duplicate files with that name (at most one,
which sequential operation preserves), exactly one file with that name exists
afterwards. -/
theorem second_save_updates_unique_file (st : DriveState) (folder key : String)
    (b1 b2 : Json) :
    (saveTodos okOracle st folder key b1).resp.status = 200
    ∧ (saveTodos okOracle (saveTodos okOracle st folder key b1).state folder key
        b2).resp.status = 200
    ∧ (∃ fid,
        (saveTodos okOracle (saveTodos okOracle st folder key b1).state folder key
            b2).trace
          = [.list key folder, .update fid (jsonStringify b2)])
    ∧ (countName st folder key ≤ 1 →
        countName
          (saveTodos okOracle (saveTodos okOracle st folder key b1).state folder key
              b2).state folder key = 1) := by
  cases h : listFiles st folder key with
  | nil =>
    rw [saveTodos_ok_create st folder key b1 h]
    have h1 : listFiles
        ⟨st.files ++ [⟨st.nextId, key, [folder], jsonStringify b1⟩], st.nextId + 1⟩
        folder key = [⟨st.nextId, key, [folder], jsonStringify b1⟩] := by
      rw [listFiles_mk, filesMatching_append,
        show filesMatching st.files folder key = [] from h, filesMatching_singleton_self]
      rfl
    rw [saveTodos_ok_update _ folder key b2 _ [] h1]
    refine ⟨rfl, rfl, ⟨st.nextId, rfl⟩, fun _ => ?_⟩
    unfold countName
    rw [listFiles_mk, filesMatching_updateContent,
      show filesMatching (st.files ++ [⟨st.nextId, key, [folder], jsonStringify b1⟩])
          folder key = [⟨st.nextId, key, [folder], jsonStringify b1⟩] from h1]
    rfl
  | cons f rest =>
    rw [saveTodos_ok_update st folder key b1 f rest h]
    have h1 : listFiles ⟨updateContent st.files f.id (jsonStringify b1), st.nextId⟩
        folder key
        = (⟨f.id, f.name, f.parents, jsonStringify b1⟩ : DriveFile)
            :: rest.map (fun x =>
                if x.id == f.id then { x with content := jsonStringify b1 } else x) := by
      rw [listFiles_mk, filesMatching_updateContent,
        show filesMatching st.files folder key = f :: rest from h]
      simp
    rw [saveTodos_ok_update _ folder key b2 _ _ h1]
    refine ⟨rfl, rfl, ⟨f.id, rfl⟩, fun hc => ?_⟩
    have hlen : rest.length = 0 := by
      unfold countName at hc
      rw [h, List.length_cons] at hc
      omega
    unfold countName
    rw [listFiles_mk, filesMatching_updateContent,
      show filesMatching (updateContent st.files f.id (jsonStringify b1)) folder key
          = _ :: _ from h1]
    simp [hlen]

theorem second_save_updates_unique_file_witness :
    countName (saveTodos okOracle (saveTodos okOracle ⟨[], 0⟩ "fol" "k" .null).state
        "fol" "k" (.bool true)).state "fol" "k" = 1 :=
  (second_save_updates_unique_file ⟨[], 0⟩ "fol" "k" .null (.bool true)).2.2.2
    (by decide)

end TodoServer

namespace TodoServer

/-- C7: a request without a valid authenticated session to any of the
session-required routes (GET `/api/todos`, POST `/api/todos`,
POST `/api/send-reminder`) is answered with HTTP 401 and body
`error: Not authenticated`, the store is left untouched, and no remote-store
call and no transport call is attempted. -/
theorem unauthenticated_rejected_no_store_call (o : DriveOracle) (st : DriveState)
    (folder key : String) (body : Json) (transport : MailOptions → MailOutcome)
    (clientUrl emailUser userEmail userName taskName dueDate priority
      taskId : String) :
    apiTodosGet false o st folder key
        = (⟨401, .json (.obj [("error", .str "Not authenticated")])⟩, [])
    ∧ apiTodosPost false o st folder key body
        = ⟨st, ⟨401, .json (.obj [("error", .str "Not authenticated")])⟩, []⟩
    ∧ sendReminderHandler false transport clientUrl emailUser userEmail userName
        taskName dueDate priority taskId
        = ⟨⟨401, .json (.obj [("error", .str "Not authenticated")])⟩, 0⟩ :=
  ⟨rfl, rfl, rfl⟩

/-- C8: with all required fields present, the reminder endpoint answers with
the sent acknowledgment when the transport accepts the message and with
HTTP 500 and body `error: Failed to send reminder` when the transport
rejects or is unreachable; in both cases the message is handed to the
transport exactly once — no retry and no queue. -/
theorem reminder_ack_and_error_shape (transport : MailOptions → MailOutcome)
    (clientUrl emailUser userEmail userName taskName dueDate priority
      taskId : String) :
    (∀ r : String,
      transport (buildMailOptions emailUser userEmail userName taskName dueDate
          priority (clientUrl ++ "/task/" ++ taskId)) = .accepted r →
      sendReminderHandler true transport clientUrl emailUser userEmail userName
          taskName dueDate priority taskId
        = ⟨⟨200, .json (.obj [("message", .str "Reminder sent successfully")])⟩, 1⟩)
    ∧ (∀ err : String,
      transport (buildMailOptions emailUser userEmail userName taskName dueDate
          priority (clientUrl ++ "/task/" ++ taskId)) = .failed err →
      sendReminderHandler true transport clientUrl emailUser userEmail userName
          taskName dueDate priority taskId
        = ⟨⟨500, .json (.obj [("error", .str "Failed to send reminder")])⟩, 1⟩) := by
  constructor
  · intro r h
    unfold sendReminderHandler sendTaskReminder
    rw [h]
    rfl
  · intro err h
    unfold sendReminderHandler sendTaskReminder
    rw [h]
    rfl

theorem reminder_ack_and_error_shape_witness :
    sendReminderHandler true (fun _ => .accepted "250 OK") "cu" "eu" "ue" "un" "tn"
        "dd" "pr" "ti"
      = ⟨⟨200, .json (.obj [("message", .str "Reminder sent successfully")])⟩, 1⟩ :=
  (reminder_ack_and_error_shape (fun _ => .accepted "250 OK") "cu" "eu" "ue" "un"
    "tn" "dd" "pr" "ti").1 "250 OK" rfl

/-- C9: every failure of the remote store's list, get, update or create call
during Fetch or Save is caught at the route boundary and answered with a
generic 500 whose body is a fixed string independent of the thrown error, the
store is left unchanged by a failed Save, and the trace shows the failing
call attempted exactly once with nothing after it — no retry. -/
theorem store_failures_generic_500 (st : DriveState) (folder key : String)
    (body : Json) (e : String) :
    getTodos ⟨some e, none, none, none⟩ st folder key
        = (⟨500, .text "Error fetching todos"⟩, [.list key folder])
    ∧ (∀ f rest, listFiles st folder key = f :: rest →
        getTodos ⟨none, some e, none, none⟩ st folder key
          = (⟨500, .text "Error fetching todos"⟩, [.list key folder, .get f.id]))
    ∧ saveTodos ⟨some e, none, none, none⟩ st folder key body
        = ⟨st, ⟨500, .text "Error saving todos"⟩, [.list key folder]⟩
    ∧ (∀ f rest, listFiles st folder key = f :: rest →
        saveTodos ⟨none, none, some e, none⟩ st folder key body
          = ⟨st, ⟨500, .text "Error saving todos"⟩,
              [.list key folder, .update f.id (jsonStringify body)]⟩)
    ∧ (listFiles st folder key = [] →
        saveTodos ⟨none, none, none, some e⟩ st folder key body
          = ⟨st, ⟨500, .text "Error saving todos"⟩,
              [.list key folder,
                .create ⟨key, [folder], "application/json"⟩ (jsonStringify body)]⟩) := by
  refine ⟨rfl, ?_, rfl, ?_, ?_⟩
  · intro f rest h
    unfold getTodos
    rw [h]
  · intro f rest h
    unfold saveTodos
    rw [h]
  · intro h
    unfold saveTodos
    rw [h]

theorem store_failures_generic_500_witness :
    saveTodos ⟨none, none, some "boom", none⟩ ⟨[⟨0, "k", ["fol"], "old"⟩], 1⟩ "fol" "k"
        .null
      = ⟨⟨[⟨0, "k", ["fol"], "old"⟩], 1⟩, ⟨500, .text "Error saving todos"⟩,
          [.list "k" "fol", .update 0 (jsonStringify .null)]⟩ :=
  (store_failures_generic_500 ⟨[⟨0, "k", ["fol"], "old"⟩], 1⟩ "fol" "k" .null
    "boom").2.2.2.1 ⟨0, "k", ["fol"], "old"⟩ [] (by decide)

/-- C10: the bytes a Save writes to the store are
`JSON.stringify(payload, null, 2)` — a pretty-printed re-serialization of the
parsed request body, not the caller's raw bytes — so any two requests whose
bodies parse to the same JSON value, even against different store states,
store the identical representation. -/
theorem saved_bytes_are_pretty_reserialization (st : DriveState)
    (folder key : String) (v : Json) :
    writtenContent (saveTodos okOracle st folder key v).trace
        = some (jsonStringify v)
    ∧ (∀ st2 : DriveState, ∀ v2 : Json, v2 = v →
        writtenContent (saveTodos okOracle st2 folder key v2).trace
          = writtenContent (saveTodos okOracle st folder key v).trace)
    ∧ jsonStringify (.obj [("tasks", .arr [.str "a"])])
        = "\x7b\n  \"tasks\": [\n    \"a\"\n  ]\n\x7d" := by
  have hw : ∀ st2 : DriveState,
      writtenContent (saveTodos okOracle st2 folder key v).trace
        = some (jsonStringify v) := by
    intro st2
    cases h : listFiles st2 folder key with
    | nil =>
      rw [saveTodos_ok_create st2 folder key v h]
      rfl
    | cons f rest =>
      rw [saveTodos_ok_update st2 folder key v f rest h]
      rfl
  refine ⟨hw st, fun st2 v2 h2 => ?_, rfl⟩
  rw [h2, hw st2, hw st]

theorem saved_bytes_are_pretty_reserialization_witness :
    writtenContent (saveTodos okOracle ⟨[], 0⟩ "fol" "k" (.obj [("a", .num 1)])).trace
      = writtenContent (saveTodos okOracle ⟨[⟨0, "k", ["fol"], "x"⟩], 1⟩ "fol" "k"
          (.obj [("a", .num 1)])).trace :=
  (saved_bytes_are_pretty_reserialization ⟨[⟨0, "k", ["fol"], "x"⟩], 1⟩ "fol" "k"
    (.obj [("a", .num 1)])).2.1 ⟨[], 0⟩ (.obj [("a", .num 1)]) rfl

end TodoServer
